import Mathlib

/-!
Shallow embedding of the job-orchestration core of the `ubuntu-zendriver`
repository (`zendriver_api.py`, `database.py`, `session_manager.py`).

Pure data and control flow are translated directly; interactions with the
browser, the network, the clock and the file system are modelled as explicit
environment records that a run consumes (each field records what the external
world would have answered at that step).  The SQLite tables (all with a
UNIQUE key and written through INSERT OR REPLACE, or updated in place) are
modelled as association lists with replace-on-write semantics.
-/

namespace ZendriverApi

/-- A JSON value as far as the request bodies of this service need:
`null`, strings, numbers and booleans. -/
inductive JVal where
  | null
  | str (s : String)
  | num (n : Int)
  | boolean (b : Bool)
deriving DecidableEq, Repr

/-- A JSON object body (`request.json`): an association list of keys to values. -/
abbrev Request := List (String × JVal)

/-- Python `k in data` on a dict: the key is present. -/
def hasKey (data : Request) (k : String) : Bool :=
  data.any (fun p => p.1 == k)

/-- Python `data.get(k)`: the value when the key is present. -/
def data_get (data : Request) (k : String) : Option JVal :=
  (data.find? (fun p => p.1 == k)).map (fun p => p.2)

/-- `required_fields` of `validate_request` (zendriver_api.py:889). -/
def required_fields : List String :=
  ["jobId", "prompt", "model", "timestamp", "userId", "action", "timeout", "callbackUrl"]

/-- `validate_request` (zendriver_api.py:887-895): scans the required fields in
order and reports the first missing one; only key presence is inspected. -/
def validate_request (data : Request) : Bool × String :=
  match required_fields.find? (fun f => !hasKey data f) with
  | some f => (false, "Missing required field: " ++ f)
  | none => (true, "Valid request")

/-- Row of the `user_credentials` table (database.py:34-44). -/
structure CredRow where
  email : String
  account_status : String
  credits_status : String
deriving DecidableEq, Repr

/-- Row of the `job_history` table (database.py:47-58); `job_id` is UNIQUE. -/
structure JobRow where
  job_id : String
  user_id : String
  prompt : String
  status : String
  video_filename : Option String
deriving DecidableEq, Repr

/-- The SQLite database of `DatabaseManager`: three tables, each keyed by a
UNIQUE column (`user_id`, `user_id`, `job_id` respectively). -/
structure Store where
  user_projects : List (String × String)
  user_credentials : List (String × CredRow)
  job_history : List JobRow
deriving DecidableEq, Repr

/-- `DatabaseManager.get_user_project` (database.py:83-96). -/
def get_user_project (st : Store) (user_id : String) : Option String :=
  (st.user_projects.find? (fun r => r.1 == user_id)).map (fun r => r.2)

/-- `DatabaseManager.set_user_project` (database.py:98-112):
INSERT OR REPLACE keyed on the UNIQUE `user_id` column — any previous row for
the user is replaced by the new one. -/
def set_user_project (st : Store) (user_id project_id : String) : Store :=
  { st with user_projects :=
      (user_id, project_id) :: st.user_projects.filter (fun r => r.1 != user_id) }

/-- `DatabaseManager.save_user_credentials` (database.py:126-141):
INSERT OR REPLACE keyed on UNIQUE `user_id`; the unspecified `credits_status`
column falls back to its schema default `available`. -/
def save_user_credentials (st : Store) (user_id email : String)
    (account_status : String) : Store :=
  { st with user_credentials :=
      (user_id, { email := email, account_status := account_status,
                  credits_status := "available" })
        :: st.user_credentials.filter (fun r => r.1 != user_id) }

/-- `DatabaseManager.update_account_status` (database.py:143-158):
UPDATE of `credits_status` on every row matching `user_id`. -/
def update_account_status (st : Store) (user_id credits_status : String) : Store :=
  { st with user_credentials :=
      st.user_credentials.map (fun r =>
        if r.1 == user_id then (r.1, { r.2 with credits_status := credits_status }) else r) }

/-- `DatabaseManager.save_job_history` (database.py:160-174):
INSERT OR REPLACE keyed on the UNIQUE `job_id` column — any previous row for
the job id is replaced by the new one. -/
def save_job_history (st : Store) (job_id user_id prompt status : String)
    (video_filename : Option String) : Store :=
  { st with job_history :=
      { job_id := job_id, user_id := user_id, prompt := prompt, status := status,
        video_filename := video_filename }
        :: st.job_history.filter (fun r => r.job_id != job_id) }

/-- The characters admitted by the filename sanitizer besides alphanumerics
(zendriver_api.py:860). -/
def allowed_chars : List Char := [' ', '-', '_', '.']

/-- Python `s.rstrip()`: drop trailing whitespace, for the platform's
whitespace classifier `ws`. -/
def py_rstrip (ws : Char → Bool) (s : String) : String :=
  String.mk ((s.data.reverse.dropWhile ws).reverse)

/-- `"".join(c for c in video_filename if c.isalnum() or c in (' ', '-', '_', '.'))`
(zendriver_api.py:860), for the platform's alphanumeric classifier `isalnum`. -/
def sanitize_chars (isalnum : Char → Bool) (s : String) : String :=
  String.mk (s.data.filter (fun c => isalnum c || allowed_chars.contains c))

/-- `f"video_{prompt_text[:20]}_{timestamp}.mp4"` (zendriver_api.py:859). -/
def video_filename_raw (prompt_text timestamp : String) : String :=
  "video_" ++ String.mk (prompt_text.data.take 20) ++ "_" ++ timestamp ++ ".mp4"

/-- The sanitized video filename built at zendriver_api.py:859-860. -/
def make_video_filename (isalnum ws : Char → Bool) (prompt_text timestamp : String) : String :=
  py_rstrip ws (sanitize_chars isalnum (video_filename_raw prompt_text timestamp))

/-- What the browser and the artifact fetch answer at each polling attempt of
`wait_and_download_video` (zendriver_api.py:830-885). -/
structure PollEnv where
  /-- `find('div[data-index="1"] video')` located an element at attempt `i`. -/
  video_elem : Nat → Bool
  /-- the element's `src` attribute at attempt `i` (none when absent). -/
  video_src : Nat → Option String
  /-- HTTP status of `requests.get(video_url, stream=True)` at attempt `i`. -/
  download_status : Nat → Nat

/-- `max_attempts` of the completion poller (zendriver_api.py:839). -/
def max_attempts : Nat := 10

/-- The `for attempt in range(max_attempts)` loop of `wait_and_download_video`
(zendriver_api.py:841-878), fuelled by the remaining attempts.  Returns the
number of checks performed together with the downloaded filename, if any.
A found element with a source URL whose fetch returns 200 ends the loop with
the sanitized filename; a missing element, missing URL, or non-200 fetch is
logged and the loop continues. -/
def poll_loop (env : PollEnv) (mk_name : Nat → String) :
    Nat → Nat → Nat × Option String
  | 0, attempt => (attempt, none)
  | fuel + 1, attempt =>
    if env.video_elem attempt then
      match env.video_src attempt with
      | some _ =>
        if env.download_status attempt == 200 then
          (attempt + 1, some (mk_name attempt))
        else poll_loop env mk_name fuel (attempt + 1)
      | none => poll_loop env mk_name fuel (attempt + 1)
    else poll_loop env mk_name fuel (attempt + 1)

/-- `wait_and_download_video` (zendriver_api.py:830-885): after the grace
period, poll up to `max_attempts` times; the filename is derived from the
prompt and the wall clock at the successful attempt (`ts`).  Returns the
number of checks performed and the filename (`none` models the Python
`return None` after the loop). -/
def wait_and_download_video (isalnum ws : Char → Bool) (env : PollEnv)
    (ts : Nat → String) (prompt_text : String) : Nat × Option String :=
  poll_loop env (fun a => make_video_filename isalnum ws prompt_text (ts a)) max_attempts 0

/-- The parsed content of `credentials.json` as `SessionManager` consumes it:
`email`, `password` and the `is_first_login` flag, each possibly absent
(session_manager.py:16-28). -/
structure Credentials where
  email : Option String
  password : Option String
  first_login_flag : Option Bool
deriving DecidableEq, Repr

/-- The readable files: a map from file name to parsed credentials content,
`none` when the file is missing or unreadable (session_manager.py:40-62). -/
abbrev FileSystem := String → Option Credentials

/-- `SessionManager.__init__` fields (session_manager.py:12-14): the file
names are constants, independent of any user. -/
structure SessionManager where
  credentials_file : String
  session_file : String
deriving DecidableEq, Repr

/-- `SessionManager()` (session_manager.py:12-14). -/
def mk_session_manager : SessionManager :=
  { credentials_file := "credentials.json", session_file := "session.json" }

/-- `SessionManager.get_current_credentials` (session_manager.py:37-66):
read and parse `self.credentials_file`; `none` on a missing or unreadable
file. -/
def get_current_credentials (sm : SessionManager) (fs : FileSystem) : Option Credentials :=
  fs sm.credentials_file

/-- `SessionManager.is_first_login` (session_manager.py:165-176): no
credentials → `True`; otherwise `credentials.get("is_first_login", True)`. -/
def sm_first_login (sm : SessionManager) (fs : FileSystem) : Bool :=
  match get_current_credentials sm fs with
  | none => true
  | some c => c.first_login_flag.getD true

/-- The `ZendriverSession` fields the orchestration core reads
(zendriver_api.py:61-68): the per-job ids and the session manager, which is
constructed with no user-specific input. -/
structure ZendriverSession where
  job_id : String
  user_id : String
  session_manager : SessionManager
deriving DecidableEq, Repr

/-- `ZendriverSession(job_id, user_id)` (zendriver_api.py:61-68). -/
def mk_zendriver_session (job_id user_id : String) : ZendriverSession :=
  { job_id := job_id, user_id := user_id, session_manager := mk_session_manager }

/-- The credentials a job's worker reads (zendriver_api.py:947-953):
`session.session_manager.get_current_credentials()`. -/
def job_credentials_lookup (job_id user_id : String) (fs : FileSystem) : Option Credentials :=
  get_current_credentials (mk_zendriver_session job_id user_id).session_manager fs

/-- The first-login flag a job's session consults
(zendriver_api.py:550, session_manager.py:165-176). -/
def job_first_login_flag (job_id user_id : String) (fs : FileSystem) : Bool :=
  sm_first_login (mk_zendriver_session job_id user_id).session_manager fs

/-- Python truthiness of an optional string: `None` and `""` are falsy. -/
def opt_str_truthy : Option String → Bool
  | none => false
  | some s => !s.isEmpty

/-- `starts_with hay needle`: `needle` is a prefix of `hay` (character lists). -/
def starts_with : List Char → List Char → Bool
  | _, [] => true
  | [], _ :: _ => false
  | a :: hay, b :: needle => a == b && starts_with hay needle

/-- `has_substr hay needle`: `needle` occurs contiguously in `hay`. -/
def has_substr : List Char → List Char → Bool
  | [], needle => needle.isEmpty
  | a :: hay, needle => starts_with (a :: hay) needle || has_substr hay needle

/-- Python `needle in hay` on strings: substring test. -/
def py_in (needle hay : String) : Bool :=
  has_substr hay.data needle.data

/-- What the browser answers during `create_video_from_text`
(zendriver_api.py:640-828). -/
structure GenEnv where
  /-- one of `text_input_selectors` matched (zendriver_api.py:648-677). -/
  text_input_found : Bool
  /-- typing succeeded: `send_keys` or, after it raised, the JavaScript
  fallback ran without raising (zendriver_api.py:679-708). -/
  typing_ok : Bool
  /-- one of `generate_button_texts` matched (zendriver_api.py:713-741). -/
  gen_button_found : Bool
  /-- `generate_button.get("disabled")`; `none` models the `await` raising,
  which falls through to the JavaScript click fallback
  (zendriver_api.py:744-756). -/
  disabled_attr : Option Bool
  /-- the native `generate_button.click()` did not raise (zendriver_api.py:752). -/
  click_ok : Bool
  /-- the JavaScript click fallback's returned string:
  `"disabled"`, `"clicked"` or `"not_found"` (zendriver_api.py:757-787). -/
  js_click : String
  /-- the JavaScript click fallback itself raised (zendriver_api.py:789-791). -/
  js_click_raises : Bool
  /-- one of `error_selectors` (insufficient-credit toast) matched after the
  click (zendriver_api.py:793-821). -/
  credit_error_shown : Bool

/-- The JavaScript click fallback of `create_video_from_text`
(zendriver_api.py:757-791): `"disabled"` is a soft success, `"clicked"`
proceeds to the credit-error scan, anything else fails. -/
def js_click_fallback (env : GenEnv) : Bool :=
  if env.js_click_raises then false
  else if env.js_click == "disabled" then true
  else if env.js_click == "clicked" then !env.credit_error_shown
  else false

/-- `ZendriverSession.create_video_from_text` (zendriver_api.py:640-828).
Note zendriver_api.py:746-750: a found-but-disabled Generate button returns
`True` (soft success), it does not fail the step. -/
def create_video_from_text (env : GenEnv) : Bool :=
  if !env.text_input_found then false
  else if !env.typing_ok then false
  else if !env.gen_button_found then false
  else
    match env.disabled_attr with
    | some true => true
    | some false =>
      if env.click_ok then !env.credit_error_shown
      else js_click_fallback env
    | none => js_click_fallback env

/-- The fields `process_zendriver_job` pulls out of the request body
(zendriver_api.py:935-938). -/
structure JobData where
  jobId : String
  userId : String
  prompt : String
  callbackUrl : String
deriving DecidableEq, Repr

/-- The callback payload `send_callback` posts (zendriver_api.py:899-905);
the UTC timestamp field is left out of the embedding. -/
structure Callback where
  jobId : String
  status : String
  resultUrl : Option String
  error : Option String
deriving DecidableEq, Repr

/-- `send_callback` (zendriver_api.py:897-913): build the payload and POST
it once; `deliver` answers the HTTP status of the POST, `none` when the
request raised.  Returns the payload together with the delivery result
(`status == 200`), which every caller in the source ignores. -/
def send_callback (deliver : String → Callback → Option Nat)
    (callback_url job_id status : String)
    (result_url : Option String) (error : Option String) :
    Callback × Bool :=
  let cb : Callback :=
    { jobId := job_id, status := status, resultUrl := result_url, error := error }
  match deliver callback_url cb with
  | some code => (cb, code == 200)
  | none => (cb, false)

/-- Everything the external world answers during one run of
`process_zendriver_job` (zendriver_api.py:933-1044). -/
structure JobEnv where
  /-- `session.create_session()` succeeded (zendriver_api.py:948). -/
  create_session_ok : Bool
  /-- the readable files, for the credentials lookups (zendriver_api.py:953, 1002). -/
  fs : FileSystem
  /-- `session.smart_login(email, password)` succeeded (zendriver_api.py:965). -/
  smart_login_ok : Bool
  /-- `window.location.href` when the stored project is checked (zendriver_api.py:974). -/
  current_url : String
  /-- `session.validate_project_access(project_id)` succeeded (zendriver_api.py:982). -/
  validate_access_ok : Bool
  /-- `session.create_new_project()` result: the new project id, or `none`
  for the falsy failure return (zendriver_api.py:987, 995). -/
  create_new_project_result : Option String
  /-- the browser's answers during `create_video_from_text` (zendriver_api.py:1007). -/
  gen : GenEnv
  /-- the browser's answers during `wait_and_download_video` (zendriver_api.py:1011). -/
  poll : PollEnv
  /-- `datetime.now().strftime(...)` at polling attempt `i` (zendriver_api.py:859). -/
  poll_ts : Nat → String
  /-- HTTP status of the callback POST, `none` when it raised (zendriver_api.py:908). -/
  deliver : String → Callback → Option Nat
  /-- the platform's `str.isalnum` classifier (zendriver_api.py:860). -/
  isalnum : Char → Bool
  /-- the platform's `str.rstrip` whitespace classifier (zendriver_api.py:860). -/
  ws : Char → Bool

/-- The workspace-affinity block of `process_zendriver_job`
(zendriver_api.py:968-1004): reuse the stored project id when the current
location already shows it or navigation validates it; otherwise create a new
project and overwrite the stored mapping (`db.set_user_project`); a first-time
user also gets a new project, the mapping stored, and their credentials row
saved.  Returns the store after the block and the project id, or the raised
failure message. -/
def affinity_step (env : JobEnv) (j : JobData) (st : Store) :
    Store × Except String String :=
  match get_user_project st j.userId with
  | some project_id =>
    if py_in project_id env.current_url then (st, Except.ok project_id)
    else if env.validate_access_ok then (st, Except.ok project_id)
    else
      match env.create_new_project_result with
      | none => (st, Except.error "Failed to create new project")
      | some new_id => (set_user_project st j.userId new_id, Except.ok new_id)
  | none =>
    match env.create_new_project_result with
    | none => (st, Except.error "Failed to create new project")
    | some new_id =>
      let st1 := set_user_project st j.userId new_id
      let st2 :=
        match job_credentials_lookup j.jobId j.userId env.fs with
        | some c =>
          if opt_str_truthy c.email then
            save_user_credentials st1 j.userId (c.email.getD "") "active"
          else st1
        | none => st1
      (st2, Except.ok new_id)

/-- The `try` body of `process_zendriver_job` up to the artifact download
(zendriver_api.py:944-1011), with each `raise Exception(...)` collapsed into
an `Except.error` carrying the message.  Returns the store as of the end of
the body (or as of the raise) and the download result. -/
def job_core (env : JobEnv) (j : JobData) (st : Store) :
    Store × Except String (Option String) :=
  if !env.create_session_ok then
    (st, Except.error "Failed to create Zendriver session")
  else
    match job_credentials_lookup j.jobId j.userId env.fs with
    | none => (st, Except.error "No credentials found")
    | some creds =>
      if !(opt_str_truthy creds.email && opt_str_truthy creds.password) then
        (st, Except.error "Invalid credentials")
      else if !env.smart_login_ok then
        (st, Except.error "Login failed")
      else
        match affinity_step env j st with
        | (st', Except.error msg) => (st', Except.error msg)
        | (st', Except.ok _project_id) =>
          if !create_video_from_text env.gen then
            (st', Except.error "Failed to create video from text")
          else
            (st', Except.ok
              (wait_and_download_video env.isalnum env.ws env.poll env.poll_ts j.prompt).2)

/-- The three ways one worker run ends (zendriver_api.py:1013-1035). -/
inductive JobOutcome where
  | ok (video_filename : String)
  | ok_no_credits
  | failed (msg : String)
deriving DecidableEq, Repr

/-- What one worker run produced: the callbacks POSTed in order, the store
after the run, and the outcome. -/
structure JobRun where
  callbacks : List Callback
  store : Store
  outcome : JobOutcome
deriving DecidableEq, Repr

/-- `process_zendriver_job` (zendriver_api.py:933-1044): one `processing`
callback up front, the `try` body (`job_core`), then exactly one terminal
callback and one history write — `completed` with the artifact URL, or
`completed` with the literal `video_creation_started_but_no_credits` plus
the credit-status update, or `failed` with the raised message. -/
def process_zendriver_job (env : JobEnv) (base_url : String) (j : JobData)
    (st : Store) : JobRun :=
  let pcb := (send_callback env.deliver j.callbackUrl j.jobId "processing" none none).1
  match job_core env j st with
  | (st', Except.error msg) =>
    let fcb := (send_callback env.deliver j.callbackUrl j.jobId "failed" none (some msg)).1
    { callbacks := [pcb, fcb],
      store := save_job_history st' j.jobId j.userId j.prompt "failed" none,
      outcome := JobOutcome.failed msg }
  | (st', Except.ok (some video_filename)) =>
    let video_url := base_url ++ "/videos/" ++ video_filename
    let ccb := (send_callback env.deliver j.callbackUrl j.jobId "completed" (some video_url) none).1
    { callbacks := [pcb, ccb],
      store := save_job_history st' j.jobId j.userId j.prompt "completed" (some video_filename),
      outcome := JobOutcome.ok video_filename }
  | (st', Except.ok none) =>
    let ncb := (send_callback env.deliver j.callbackUrl j.jobId "completed"
      (some "video_creation_started_but_no_credits") none).1
    { callbacks := [pcb, ncb],
      store := save_job_history (update_account_status st' j.userId "exhausted")
        j.jobId j.userId j.prompt "completed_no_credits" none,
      outcome := JobOutcome.ok_no_credits }

/-- `job_data[...]` extraction at zendriver_api.py:935-938; a non-string
JSON value is collapsed to `""` in this embedding. -/
def jv_string : Option JVal → String
  | some (JVal.str s) => s
  | _ => ""

/-- Build the worker's `JobData` from the request body (zendriver_api.py:935-938). -/
def job_data_of (data : Request) : JobData :=
  { jobId := jv_string (data_get data "jobId"),
    userId := jv_string (data_get data "userId"),
    prompt := jv_string (data_get data "prompt"),
    callbackUrl := jv_string (data_get data "callbackUrl") }

/-- The thread body `run_async_job` (zendriver_api.py:1074-1082): run
`process_zendriver_job` on the request data. -/
def run_worker (env : JobEnv) (base_url : String) (st : Store) (data : Request) : JobRun :=
  process_zendriver_job env base_url (job_data_of data) st

/-- What the dispatch endpoint produced: the synchronous HTTP response and
whether (and with which run) a worker thread was started. -/
structure DispatchResult where
  http_status : Nat
  body_error : Option String
  body_status : Option String
  body_jobId : Option JVal
  worker_started : Bool
  job_run : Option JobRun

/-- `google_flow_automation` (zendriver_api.py:1046-1098): validate the body;
a failed validation returns `400 {error}` synchronously with no thread
started; otherwise a daemon thread running the worker is started and
`202 {status: accepted, jobId, message}` is returned immediately. -/
def google_flow_automation (worker : Request → JobRun) (data : Request) : DispatchResult :=
  match validate_request data with
  | (false, msg) =>
    { http_status := 400, body_error := some msg, body_status := none,
      body_jobId := none, worker_started := false, job_run := none }
  | (true, _) =>
    { http_status := 202, body_error := none, body_status := some "accepted",
      body_jobId := some ((data_get data "jobId").getD JVal.null),
      worker_started := true, job_run := some (worker data) }

/-- The callbacks observable from one dispatch: none when no worker started. -/
def dispatch_callbacks (r : DispatchResult) : List Callback :=
  match r.job_run with
  | some run => run.callbacks
  | none => []

/-- The store after one dispatch: unchanged when no worker started. -/
def dispatch_store (r : DispatchResult) (st : Store) : Store :=
  match r.job_run with
  | some run => run.store
  | none => st

/-! ## Helper lemmas -/

theorem validate_request_of_missing (data : Request) (f : String)
    (hf : f ∈ required_fields) (hmiss : hasKey data f = false) :
    ∃ g, validate_request data = (false, "Missing required field: " ++ g) := by
  have hsome : (required_fields.find? (fun g => !hasKey data g)).isSome := by
    rw [List.find?_isSome]
    exact ⟨f, hf, by simp [hmiss]⟩
  obtain ⟨g, hg⟩ := Option.isSome_iff_exists.mp hsome
  exact ⟨g, by simp [validate_request, hg]⟩

theorem validate_request_of_present (data : Request)
    (hall : ∀ f ∈ required_fields, hasKey data f = true) :
    validate_request data = (true, "Valid request") := by
  have hnone : required_fields.find? (fun g => !hasKey data g) = none := by
    rw [List.find?_eq_none]
    intro x hx
    simp [hall x hx]
  simp [validate_request, hnone]

theorem poll_loop_fst_le (env : PollEnv) (mk_name : Nat → String) :
    ∀ fuel attempt, (poll_loop env mk_name fuel attempt).1 ≤ attempt + fuel := by
  intro fuel
  induction fuel with
  | zero => intro attempt; simp [poll_loop]
  | succ n ih =>
    intro attempt
    have hrec := ih (attempt + 1)
    rw [poll_loop]
    by_cases he : env.video_elem attempt
    · cases hs : env.video_src attempt with
      | some u =>
        by_cases hd : (env.download_status attempt == 200) = true
        · simp only [he, hs, hd, if_true]
          omega
        · simp only [he, hs, hd, if_true, if_false, Bool.false_eq_true]
          omega
      | none =>
        simp only [he, hs, if_true]
        omega
    · simp only [he, Bool.false_eq_true, if_false]
      omega

theorem poll_loop_none (env : PollEnv) (mk_name : Nat → String) :
    ∀ fuel attempt,
      (∀ i, attempt ≤ i → i < attempt + fuel →
        env.video_elem i = false ∨ env.video_src i = none) →
      (poll_loop env mk_name fuel attempt).2 = none := by
  intro fuel
  induction fuel with
  | zero => intro attempt _; simp [poll_loop]
  | succ n ih =>
    intro attempt h
    have hrec := ih (attempt + 1) (fun i h1 h2 => h i (by omega) (by omega))
    rw [poll_loop]
    by_cases he : env.video_elem attempt
    · have hsrc : env.video_src attempt = none := by
        rcases h attempt (le_refl _) (by omega) with h1 | h1
        · rw [he] at h1; cases h1
        · exact h1
      simp only [he, if_true, hsrc]
      exact hrec
    · simp only [he, Bool.false_eq_true, if_false]
      exact hrec

theorem poll_loop_some (env : PollEnv) (mk_name : Nat → String) :
    ∀ fuel attempt s, (poll_loop env mk_name fuel attempt).2 = some s →
      ∃ i, s = mk_name i := by
  intro fuel
  induction fuel with
  | zero => intro attempt s h; simp [poll_loop] at h
  | succ n ih =>
    intro attempt s h
    rw [poll_loop] at h
    by_cases he : env.video_elem attempt
    · cases hs : env.video_src attempt with
      | some u =>
        by_cases hd : (env.download_status attempt == 200) = true
        · simp only [he, hs, hd, if_true] at h
          exact ⟨attempt, (Option.some_inj.mp h).symm⟩
        · simp only [he, hs, hd, if_true, if_false, Bool.false_eq_true] at h
          exact ih (attempt + 1) s h
      | none =>
        simp only [he, hs, if_true] at h
        exact ih (attempt + 1) s h
    · simp only [he, Bool.false_eq_true, if_false] at h
      exact ih (attempt + 1) s h

theorem make_video_filename_chars (isalnum ws : Char → Bool)
    (prompt_text timestamp : String) (c : Char)
    (hc : c ∈ (make_video_filename isalnum ws prompt_text timestamp).data) :
    isalnum c = true ∨ c ∈ allowed_chars := by
  have h1 : c ∈ (sanitize_chars isalnum (video_filename_raw prompt_text timestamp)).data := by
    have hd : (make_video_filename isalnum ws prompt_text timestamp).data =
        (((sanitize_chars isalnum
          (video_filename_raw prompt_text timestamp)).data.reverse.dropWhile ws).reverse) := rfl
    rw [hd, List.mem_reverse] at hc
    have hsub := List.dropWhile_sublist (l :=
      (sanitize_chars isalnum (video_filename_raw prompt_text timestamp)).data.reverse) ws
    have := hsub.subset hc
    rwa [List.mem_reverse] at this
  have h2 : c ∈ (video_filename_raw prompt_text timestamp).data
      ∧ (isalnum c || allowed_chars.contains c) = true := by
    have hd : (sanitize_chars isalnum (video_filename_raw prompt_text timestamp)).data =
        (video_filename_raw prompt_text timestamp).data.filter
          (fun c => isalnum c || allowed_chars.contains c) := rfl
    rw [hd] at h1
    exact List.mem_filter.mp h1
  rcases Bool.or_eq_true_iff.mp h2.2 with h | h
  · exact Or.inl h
  · exact Or.inr (List.elem_iff.mp h)

theorem filter_key_ne_then_eq {α : Type} (k : α → String) (u : String) (l : List α) :
    (l.filter (fun r => k r != u)).filter (fun r => k r == u) = [] := by
  rw [List.filter_filter]
  induction l with
  | nil => rfl
  | cons a t ih =>
    by_cases h : k a = u <;> simp [List.filter_cons, h, ih]

theorem save_job_history_filter (st : Store) (j u p s : String) (v : Option String) :
    (save_job_history st j u p s v).job_history.filter (fun r => r.job_id == j)
      = [{ job_id := j, user_id := u, prompt := p, status := s, video_filename := v }] := by
  have h := filter_key_ne_then_eq (fun r : JobRow => r.job_id) j st.job_history
  simp only [save_job_history, List.filter_cons, beq_self_eq_true, if_true]
  simp [h]

/-- The callback payload built at zendriver_api.py:899-905. -/
def cb_payload (job_id status : String) (result_url error : Option String) : Callback :=
  { jobId := job_id, status := status, resultUrl := result_url, error := error }

theorem send_callback_fst (deliver : String → Callback → Option Nat)
    (callback_url job_id status : String) (result_url error : Option String) :
    (send_callback deliver callback_url job_id status result_url error).1
      = { jobId := job_id, status := status, resultUrl := result_url, error := error } := by
  cases h : deliver callback_url
      { jobId := job_id, status := status, resultUrl := result_url, error := error } with
  | none => simp [send_callback, h]
  | some code => simp [send_callback, h]

theorem update_account_status_sets (st : Store) (u cs : String) :
    ∀ p ∈ (update_account_status st u cs).user_credentials,
      p.1 = u → p.2.credits_status = cs := by
  intro p hp hu
  simp only [update_account_status, List.mem_map] at hp
  obtain ⟨q, hq, hpq⟩ := hp
  by_cases h : (q.1 == u) = true
  · rw [if_pos h] at hpq
    subst hpq
    rfl
  · rw [if_neg h] at hpq
    subst hpq
    exact absurd (beq_iff_eq.mpr hu) h

/-! ## Claims -/

/-- C1: a dispatch request missing at least one of the eight required fields
gets a synchronous 400 error response, no worker thread is started, and no
job exists: no callback is POSTed and the store (hence the job history) is
untouched. -/
theorem C1_missing_field_rejected_sync (worker : Request → JobRun)
    (data : Request) (st : Store) (f : String)
    (hf : f ∈ required_fields) (hmiss : hasKey data f = false) :
    (google_flow_automation worker data).http_status = 400
    ∧ (google_flow_automation worker data).body_error.isSome = true
    ∧ (google_flow_automation worker data).worker_started = false
    ∧ (google_flow_automation worker data).job_run = none
    ∧ dispatch_callbacks (google_flow_automation worker data) = []
    ∧ dispatch_store (google_flow_automation worker data) st = st := by
  obtain ⟨g, hg⟩ := validate_request_of_missing data f hf hmiss
  simp [google_flow_automation, hg, dispatch_callbacks, dispatch_store]

/-- The empty database, as `init_database` leaves a fresh one (database.py:16-64). -/
def empty_store : Store :=
  { user_projects := [], user_credentials := [], job_history := [] }

/-- A worker that does nothing, used to instantiate the dispatcher claims. -/
def idle_worker : Request → JobRun :=
  fun _ => { callbacks := [], store := empty_store, outcome := JobOutcome.ok_no_credits }

/-- Witness for C1: the empty body misses `jobId`, and the dispatcher
answers 400 with no worker and no job. -/
theorem C1_missing_field_rejected_sync_witness :
    ("jobId" ∈ required_fields ∧ hasKey [] "jobId" = false)
    ∧ ((google_flow_automation idle_worker []).http_status = 400
      ∧ (google_flow_automation idle_worker []).body_error.isSome = true
      ∧ (google_flow_automation idle_worker []).worker_started = false
      ∧ (google_flow_automation idle_worker []).job_run = none
      ∧ dispatch_callbacks (google_flow_automation idle_worker []) = []
      ∧ dispatch_store (google_flow_automation idle_worker []) empty_store = empty_store) :=
  ⟨⟨by decide, by decide⟩,
   C1_missing_field_rejected_sync idle_worker [] empty_store "jobId" (by decide) (by decide)⟩

/-- C2: any filename the download step produces contains only characters the
platform classifies as alphanumeric plus space, dash, underscore and dot,
whatever the input prompt held. -/
theorem C2_filename_sanitized (isalnum ws : Char → Bool) (penv : PollEnv)
    (ts : Nat → String) (prompt_text fname : String)
    (h : (wait_and_download_video isalnum ws penv ts prompt_text).2 = some fname)
    (c : Char) (hc : c ∈ fname.data) :
    isalnum c = true ∨ c ∈ allowed_chars := by
  obtain ⟨i, hi⟩ := poll_loop_some penv _ max_attempts 0 fname h
  subst hi
  exact make_video_filename_chars isalnum ws prompt_text (ts i) c hc

/-- A polling environment whose first attempt already finds the artifact. -/
def penv_found : PollEnv :=
  { video_elem := fun _ => true, video_src := fun _ => some "http://u/a.mp4",
    download_status := fun _ => 200 }

/-- Witness for C2: prompt `"a!b"` yields the downloaded filename
`video_ab_20250101.mp4`, whose characters are all admitted. -/
theorem C2_filename_sanitized_witness :
    ((wait_and_download_video Char.isAlphanum Char.isWhitespace penv_found
        (fun _ => "20250101") "a!b").2 = some "video_ab_20250101.mp4"
      ∧ 'v' ∈ "video_ab_20250101.mp4".data)
    ∧ (Char.isAlphanum 'v' = true ∨ 'v' ∈ allowed_chars) :=
  ⟨⟨by decide, by decide⟩,
   C2_filename_sanitized Char.isAlphanum Char.isWhitespace penv_found
     (fun _ => "20250101") "a!b" "video_ab_20250101.mp4" (by decide) 'v' (by decide)⟩

/-- C3: the completion poller performs at most `max_attempts = 10` checks and,
when no attempt ever shows an artifact element with a source URL, ends with
the soft no-artifact result `none` instead of looping. -/
theorem C3_poller_bounded (isalnum ws : Char → Bool) (penv : PollEnv)
    (ts : Nat → String) (prompt_text : String) :
    (wait_and_download_video isalnum ws penv ts prompt_text).1 ≤ max_attempts
    ∧ ((∀ i, i < max_attempts → penv.video_elem i = false ∨ penv.video_src i = none) →
       (wait_and_download_video isalnum ws penv ts prompt_text).2 = none) := by
  constructor
  · have h := poll_loop_fst_le penv
      (fun a => make_video_filename isalnum ws prompt_text (ts a)) max_attempts 0
    simpa [wait_and_download_video] using h
  · intro h
    exact poll_loop_none penv _ max_attempts 0 (fun i _ h2 => h i (by omega))

/-- A polling environment in which no artifact ever appears. -/
def penv_empty : PollEnv :=
  { video_elem := fun _ => false, video_src := fun _ => none,
    download_status := fun _ => 0 }

/-- Witness for C3: with no artifact at any attempt, the poller stops after
10 checks with the no-artifact result. -/
theorem C3_poller_bounded_witness :
    (∀ i, i < max_attempts → penv_empty.video_elem i = false ∨ penv_empty.video_src i = none)
    ∧ ((wait_and_download_video Char.isAlphanum Char.isWhitespace penv_empty
          (fun _ => "20250101") "p").1 ≤ max_attempts
      ∧ (wait_and_download_video Char.isAlphanum Char.isWhitespace penv_empty
          (fun _ => "20250101") "p").2 = none) :=
  ⟨by decide,
   ⟨(C3_poller_bounded Char.isAlphanum Char.isWhitespace penv_empty
       (fun _ => "20250101") "p").1,
    (C3_poller_bounded Char.isAlphanum Char.isWhitespace penv_empty
       (fun _ => "20250101") "p").2 (by decide)⟩⟩

/-- The parameters of one `save_job_history` call besides the job id. -/
structure HistWrite where
  user_id : String
  prompt : String
  status : String
  video_filename : Option String
deriving DecidableEq, Repr

/-- Replay a sequence of history writes for one job id. -/
def apply_history_writes (st : Store) (job_id : String) (writes : List HistWrite) : Store :=
  writes.foldl
    (fun s w => save_job_history s job_id w.user_id w.prompt w.status w.video_filename) st

/-- C6: writing a history record for a job id replaces any previous row:
after any number of writes for the same id, the history holds exactly one row
for that id, and it is the last write. -/
theorem C6_history_last_write_wins (st : Store) (job_id : String)
    (writes : List HistWrite) (w : HistWrite) :
    (apply_history_writes st job_id (writes ++ [w])).job_history.filter
        (fun r => r.job_id == job_id)
      = [{ job_id := job_id, user_id := w.user_id, prompt := w.prompt,
           status := w.status, video_filename := w.video_filename }]
    ∧ (apply_history_writes st job_id (writes ++ [w])).job_history.countP
        (fun r => r.job_id == job_id) = 1 := by
  have hfold : apply_history_writes st job_id (writes ++ [w])
      = save_job_history (apply_history_writes st job_id writes) job_id
          w.user_id w.prompt w.status w.video_filename := by
    simp [apply_history_writes, List.foldl_append]
  have hfil := save_job_history_filter (apply_history_writes st job_id writes)
    job_id w.user_id w.prompt w.status w.video_filename
  refine ⟨by rw [hfold]; exact hfil, ?_⟩
  rw [hfold, List.countP_eq_length_filter, hfil]
  rfl

/-- C5: with a stored affinity mapping, the job reuses the stored workspace id
when the current location or the validating navigation confirms it; when
neither confirms it and creation succeeds, the new id is returned and the
stored mapping is overwritten — the store then holds exactly one row for the
user, the new one. -/
theorem C5_affinity_reuse_or_replace (env : JobEnv) (j : JobData) (st : Store)
    (pid : String) (hstored : get_user_project st j.userId = some pid) :
    ((py_in pid env.current_url = true ∨ env.validate_access_ok = true) →
      affinity_step env j st = (st, Except.ok pid))
    ∧ (py_in pid env.current_url = false → env.validate_access_ok = false →
      ∀ nid, env.create_new_project_result = some nid →
        affinity_step env j st = (set_user_project st j.userId nid, Except.ok nid)
        ∧ (set_user_project st j.userId nid).user_projects.filter
            (fun r => r.1 == j.userId) = [(j.userId, nid)]) := by
  constructor
  · intro h
    rcases h with h | h
    · simp [affinity_step, hstored, h]
    · by_cases hin : py_in pid env.current_url = true
      · simp [affinity_step, hstored, hin]
      · simp [affinity_step, hstored, hin, h]
  · intro h1 h2 nid h3
    refine ⟨by simp [affinity_step, hstored, h1, h2, h3], ?_⟩
    have h := filter_key_ne_then_eq (fun r : String × String => r.1) j.userId st.user_projects
    simp only [set_user_project, List.filter_cons, beq_self_eq_true, if_true]
    simp [h]

/-- The browser answers of a generation step that goes through cleanly. -/
def gen_ok : GenEnv :=
  { text_input_found := true, typing_ok := true, gen_button_found := true,
    disabled_attr := some false, click_ok := true, js_click := "clicked",
    js_click_raises := false, credit_error_shown := false }

/-- The parsed `credentials.json` used in concrete runs. -/
def cred_file_content : Credentials :=
  { email := some "user@example.com", password := some "pw",
    first_login_flag := some false }

/-- A file system holding only `credentials.json`. -/
def fs0 : FileSystem :=
  fun name => if name == "credentials.json" then some cred_file_content else none

/-- A job environment in which every step succeeds but no artifact ever
appears during polling. -/
def env_base : JobEnv :=
  { create_session_ok := true, fs := fs0, smart_login_ok := true,
    current_url := "https://labs.google/fx/tools/flow",
    validate_access_ok := false, create_new_project_result := some "p-new",
    gen := gen_ok, poll := penv_empty, poll_ts := fun _ => "20250101",
    deliver := fun _ _ => none, isalnum := Char.isAlphanum, ws := Char.isWhitespace }

/-- A store with an existing affinity row `U1 → P1`. -/
def st_affine : Store :=
  { user_projects := [("U1", "P1")], user_credentials := [], job_history := [] }

/-- The job data of the concrete runs. -/
def job1 : JobData :=
  { jobId := "J1", userId := "U1", prompt := "dog running in a park",
    callbackUrl := "http://caller/cb" }

/-- Witness for C5: user `U1` has stored mapping `P1`; the claim's theorem
applies, and in particular (current location not confirming, validation
failing, creation yielding `p-new`) the mapping is overwritten with `p-new`
as the single row. -/
theorem C5_affinity_reuse_or_replace_witness :
    (get_user_project st_affine job1.userId = some "P1")
    ∧ (((py_in "P1" env_base.current_url = true ∨ env_base.validate_access_ok = true) →
        affinity_step env_base job1 st_affine = (st_affine, Except.ok "P1"))
      ∧ (py_in "P1" env_base.current_url = false → env_base.validate_access_ok = false →
        ∀ nid, env_base.create_new_project_result = some nid →
          affinity_step env_base job1 st_affine
              = (set_user_project st_affine job1.userId nid, Except.ok nid)
          ∧ (set_user_project st_affine job1.userId nid).user_projects.filter
              (fun r => r.1 == job1.userId) = [(job1.userId, nid)])) :=
  ⟨by decide, C5_affinity_reuse_or_replace env_base job1 st_affine "P1" (by decide)⟩

/-- C8: a Generate trigger that is found but disabled makes the generation
step return success (soft success), not an error. -/
theorem C8_disabled_trigger_soft_success (env : GenEnv)
    (h1 : env.text_input_found = true) (h2 : env.typing_ok = true)
    (h3 : env.gen_button_found = true) (h4 : env.disabled_attr = some true) :
    create_video_from_text env = true := by
  simp [create_video_from_text, h1, h2, h3, h4]

/-- The generation environment with a found-but-disabled trigger. -/
def gen_disabled : GenEnv :=
  { gen_ok with disabled_attr := some true }

/-- Witness for C8: the disabled-trigger environment reports success. -/
theorem C8_disabled_trigger_soft_success_witness :
    (gen_disabled.text_input_found = true ∧ gen_disabled.typing_ok = true
      ∧ gen_disabled.gen_button_found = true ∧ gen_disabled.disabled_attr = some true)
    ∧ create_video_from_text gen_disabled = true :=
  ⟨⟨rfl, rfl, rfl, rfl⟩,
   C8_disabled_trigger_soft_success gen_disabled rfl rfl rfl rfl⟩

/-- C7: every worker run POSTs exactly one `processing` callback followed by
exactly one terminal callback (`completed`, with or without an artifact URL,
or `failed`), on every path; and the delivery results of the POSTs play no
role — a run with any other delivery behaviour produces the same callbacks,
store and outcome. -/
theorem C7_one_processing_one_terminal (env : JobEnv)
    (d : String → Callback → Option Nat) (base_url : String) (j : JobData)
    (st : Store) :
    (∃ t : Callback,
      (process_zendriver_job env base_url j st).callbacks
        = [{ jobId := j.jobId, status := "processing", resultUrl := none, error := none }, t]
      ∧ (t.status = "completed" ∨ t.status = "failed"))
    ∧ process_zendriver_job { env with deliver := d } base_url j st
        = process_zendriver_job env base_url j st := by
  have hcore : job_core { env with deliver := d } j st = job_core env j st := rfl
  rcases h : job_core env j st with ⟨st', r⟩
  constructor
  · cases r with
    | error msg =>
      refine ⟨cb_payload j.jobId "failed" none (some msg), ?_, Or.inr rfl⟩
      simp [process_zendriver_job, h, send_callback_fst, cb_payload]
    | ok v =>
      cases v with
      | some f =>
        refine ⟨cb_payload j.jobId "completed" (some (base_url ++ "/videos/" ++ f)) none,
          ?_, Or.inl rfl⟩
        simp [process_zendriver_job, h, send_callback_fst, cb_payload]
      | none =>
        refine ⟨cb_payload j.jobId "completed"
          (some "video_creation_started_but_no_credits") none, ?_, Or.inl rfl⟩
        simp [process_zendriver_job, h, send_callback_fst, cb_payload]
  · cases r with
    | error msg => simp [process_zendriver_job, hcore, h, send_callback_fst]
    | ok v => cases v <;> simp [process_zendriver_job, hcore, h, send_callback_fst]

/-- C4 (amended): when the job reaches polling and it exhausts without an
artifact, the terminal callback has status `completed` with resultUrl
`video_creation_started_but_no_credits` (not `no_artifact`), and the user's
`credits_status` is set to `exhausted` on their rows in the store. -/
theorem C4_no_artifact_outcome (env : JobEnv) (base_url : String) (j : JobData)
    (st st' : Store) (h : job_core env j st = (st', Except.ok none)) :
    (process_zendriver_job env base_url j st).callbacks
      = [{ jobId := j.jobId, status := "processing", resultUrl := none, error := none },
         { jobId := j.jobId, status := "completed",
           resultUrl := some "video_creation_started_but_no_credits", error := none }]
    ∧ (process_zendriver_job env base_url j st).outcome = JobOutcome.ok_no_credits
    ∧ (process_zendriver_job env base_url j st).store
        = save_job_history (update_account_status st' j.userId "exhausted")
            j.jobId j.userId j.prompt "completed_no_credits" none
    ∧ ∀ p ∈ (process_zendriver_job env base_url j st).store.user_credentials,
        p.1 = j.userId → p.2.credits_status = "exhausted" := by
  have h4 : ∀ p ∈ (process_zendriver_job env base_url j st).store.user_credentials,
      p.1 = j.userId → p.2.credits_status = "exhausted" := by
    intro p hp hu
    have hst : (process_zendriver_job env base_url j st).store.user_credentials
        = (update_account_status st' j.userId "exhausted").user_credentials := by
      simp [process_zendriver_job, h, send_callback_fst, save_job_history]
    rw [hst] at hp
    exact update_account_status_sets st' j.userId "exhausted" p hp hu
  refine ⟨?_, ?_, ?_, h4⟩ <;> simp [process_zendriver_job, h, send_callback_fst]

/-- The store as `job_core` leaves it on the first-time-user, no-artifact run
from the empty store: the new mapping and the saved credentials row. -/
def st_after_core : Store :=
  { user_projects := [("U1", "p-new")],
    user_credentials :=
      [("U1", { email := "user@example.com", account_status := "active",
                credits_status := "available" })],
    job_history := [] }

/-- Counterexample to C4 as stated: on a concrete run whose polling exhausts
with no artifact, the terminal callback's resultUrl is the literal
`video_creation_started_but_no_credits`, not `no_artifact`. -/
theorem C4_no_artifact_counterexample :
    ((wait_and_download_video env_base.isalnum env_base.ws env_base.poll
        env_base.poll_ts job1.prompt).2 = none)
    ∧ ((process_zendriver_job env_base "http://base" job1 empty_store).callbacks.getLast?
        = some { jobId := "J1", status := "completed",
                 resultUrl := some "video_creation_started_but_no_credits", error := none })
    ∧ ((process_zendriver_job env_base "http://base" job1 empty_store).callbacks.getLast?
        ≠ some { jobId := "J1", status := "completed",
                 resultUrl := some "no_artifact", error := none }) :=
  ⟨by decide, by decide, by decide⟩

/-- Witness for C4 (amended): the concrete no-artifact run satisfies the
amended claim's conclusion. -/
theorem C4_no_artifact_outcome_witness :
    (job_core env_base job1 empty_store = (st_after_core, Except.ok none))
    ∧ ((process_zendriver_job env_base "http://base" job1 empty_store).callbacks
        = [{ jobId := job1.jobId, status := "processing", resultUrl := none, error := none },
           { jobId := job1.jobId, status := "completed",
             resultUrl := some "video_creation_started_but_no_credits", error := none }]
      ∧ (process_zendriver_job env_base "http://base" job1 empty_store).outcome
          = JobOutcome.ok_no_credits
      ∧ (process_zendriver_job env_base "http://base" job1 empty_store).store
          = save_job_history (update_account_status st_after_core job1.userId "exhausted")
              job1.jobId job1.userId job1.prompt "completed_no_credits" none
      ∧ ∀ p ∈ (process_zendriver_job env_base "http://base" job1 empty_store).store.user_credentials,
          p.1 = job1.userId → p.2.credits_status = "exhausted") :=
  ⟨rfl,
   C4_no_artifact_outcome env_base "http://base" job1 empty_store st_after_core rfl⟩

/-- C9: the credentials and the first-login flag a job reads do not depend on
its userId — every session manager points at the single file
`credentials.json`, so two jobs with different user ids read identical
values. -/
theorem C9_credentials_user_independent (job_id u1 u2 : String) (fs : FileSystem) :
    (mk_zendriver_session job_id u1).session_manager.credentials_file
        = (mk_zendriver_session job_id u2).session_manager.credentials_file
    ∧ (mk_zendriver_session job_id u1).session_manager.credentials_file
        = "credentials.json"
    ∧ job_credentials_lookup job_id u1 fs = job_credentials_lookup job_id u2 fs
    ∧ job_first_login_flag job_id u1 fs = job_first_login_flag job_id u2 fs :=
  ⟨rfl, rfl, rfl, rfl⟩

/-- C10: validation inspects only key presence; a body whose eight required
keys are all present — whatever their values, including `null` — is accepted
with 202 and a worker is started on it. -/
theorem C10_presence_only_validation (worker : Request → JobRun) (data : Request)
    (hall : ∀ f ∈ required_fields, hasKey data f = true) :
    (google_flow_automation worker data).http_status = 202
    ∧ (google_flow_automation worker data).body_status = some "accepted"
    ∧ (google_flow_automation worker data).worker_started = true
    ∧ (google_flow_automation worker data).job_run = some (worker data) := by
  simp [google_flow_automation, validate_request_of_present data hall]

/-- A request body carrying every required key with a `null` value. -/
def all_null_body : Request :=
  required_fields.map (fun f => (f, JVal.null))

/-- Witness for C10: all eight keys present but every value `null` still
yields 202 and a started worker. -/
theorem C10_presence_only_validation_witness :
    (∀ f ∈ required_fields, hasKey all_null_body f = true)
    ∧ ((google_flow_automation idle_worker all_null_body).http_status = 202
      ∧ (google_flow_automation idle_worker all_null_body).body_status = some "accepted"
      ∧ (google_flow_automation idle_worker all_null_body).worker_started = true
      ∧ (google_flow_automation idle_worker all_null_body).job_run
          = some (idle_worker all_null_body)) :=
  ⟨by decide, C10_presence_only_validation idle_worker all_null_body (by decide)⟩

end ZendriverApi
